import Mathlib

/-!
Shallow embedding of the finance repository (stockprice.py and Transfers.py).

Python floats are modelled as rationals (ℚ); a possibly-NaN observation in a
pandas close series is modelled as Option ℚ (none = NaN).  Python division,
which raises ZeroDivisionError on a zero divisor, is modelled as an
Option-valued operation.  The external data source (yfinance) is modelled by
passing its responses as explicit arguments.
-/

namespace Finance

/-! ## Configuration constants (stockprice.py lines 11-17) -/

def USD_TO_INR : ℚ := 8857 / 100

def MAX_RETRIES : Nat := 3

def BATCH_SIZE : Nat := 10

/-! ## Metric calculator: analyze_portfolio (stockprice.py lines 172-217) -/

/-- One row of the input portfolio CSV: ticker, shares_held, avg_cost_usd. -/
structure PortfolioRow where
  ticker : String
  shares_held : ℚ
  avg_cost_usd : ℚ
deriving DecidableEq

/-- A fetched market quote: current and previous close, both USD. -/
structure Quote where
  current_price_usd : ℚ
  prev_close_usd : ℚ
deriving DecidableEq

/-- The per-position metrics dict appended to results in analyze_portfolio. -/
structure PositionMetrics where
  ticker : String
  shares : ℚ
  avg_cost_usd : ℚ
  current_price_usd : ℚ
  prev_close_usd : ℚ
  daily_percent_change : ℚ
  daily_change_inr : ℚ
  investment_usd : ℚ
  current_value_usd : ℚ
  investment_inr : ℚ
  current_value_inr : ℚ
  gain_loss_usd : ℚ
  gain_loss_inr : ℚ
deriving DecidableEq

/-- Python float division: raises ZeroDivisionError (modelled as none) when
the divisor is zero. -/
def pyDiv (a b : ℚ) : Option ℚ := if b = 0 then none else some (a / b)

/-- The loop body of analyze_portfolio for one row whose ticker is present in
market_data (stockprice.py lines 181-215).  Returns none when the
daily-percent-change division raises ZeroDivisionError. -/
def analyzeRow (row : PortfolioRow) (q : Quote) (exchange_rate : ℚ) :
    Option PositionMetrics :=
  let shares := row.shares_held
  let avg_cost_usd := row.avg_cost_usd
  let current_price_usd := q.current_price_usd
  let prev_close_usd := q.prev_close_usd
  let daily_change_usd := current_price_usd - prev_close_usd
  match pyDiv daily_change_usd prev_close_usd with
  | none => none
  | some ratio =>
    let daily_percent_change := ratio * 100
    let current_value_usd := current_price_usd * shares
    let current_value_inr := current_value_usd * exchange_rate
    let total_investment_usd := avg_cost_usd * shares
    let total_investment_inr := total_investment_usd * exchange_rate
    let total_gain_loss_usd := current_value_usd - total_investment_usd
    let total_gain_loss_inr := total_gain_loss_usd * exchange_rate
    let daily_change_inr := (daily_change_usd * shares) * exchange_rate
    some
      { ticker := row.ticker
        shares := shares
        avg_cost_usd := avg_cost_usd
        current_price_usd := current_price_usd
        prev_close_usd := prev_close_usd
        daily_percent_change := daily_percent_change
        daily_change_inr := daily_change_inr
        investment_usd := total_investment_usd
        current_value_usd := current_value_usd
        investment_inr := total_investment_inr
        current_value_inr := current_value_inr
        gain_loss_usd := total_gain_loss_usd
        gain_loss_inr := total_gain_loss_inr }

/-- analyze_portfolio (stockprice.py lines 172-217): iterate over the
portfolio rows in order, skipping tickers absent from market_data; an
uncaught ZeroDivisionError in any processed row aborts the whole call
(modelled as none). -/
def analyze_portfolio (rows : List PortfolioRow)
    (market_data : String → Option Quote) (exchange_rate : ℚ) :
    Option (List PositionMetrics) :=
  match rows with
  | [] => some []
  | row :: rest =>
    match market_data row.ticker with
    | none => analyze_portfolio rest market_data exchange_rate
    | some q =>
      match analyzeRow row q exchange_rate with
      | none => none
      | some m =>
        (analyze_portfolio rest market_data exchange_rate).map (m :: ·)

/-! ## Portfolio totals: create_excel_report (stockprice.py lines 223-234) -/

/-- Sum of the Investment (USD) column. -/
def totalInvestmentUSD (ms : List PositionMetrics) : ℚ :=
  (ms.map (·.investment_usd)).sum

/-- Sum of the Gain/Loss (USD) column. -/
def totalGainLossUSD (ms : List PositionMetrics) : ℚ :=
  (ms.map (·.gain_loss_usd)).sum

/-- Sum of the Investment (INR) column. -/
def totalInvestmentINR (ms : List PositionMetrics) : ℚ :=
  (ms.map (·.investment_inr)).sum

/-- Sum of the Current Value (INR) column. -/
def totalCurrentValueINR (ms : List PositionMetrics) : ℚ :=
  (ms.map (·.current_value_inr)).sum

/-- total_gain_loss_pct (stockprice.py line 226): the guard is a ternary
yielding the literal 0 when total investment is not positive. -/
def total_gain_loss_pct (ms : List PositionMetrics) : ℚ :=
  if totalInvestmentUSD ms > 0 then
    totalGainLossUSD ms / totalInvestmentUSD ms * 100
  else 0

/-- The per-row percent-of-total-value column (stockprice.py line 233). -/
def pctOfTotalValue (ms : List PositionMetrics) (m : PositionMetrics) : ℚ :=
  m.current_value_inr / totalCurrentValueINR ms * 100

/-- The per-row percent-of-total-investment column (stockprice.py line 234). -/
def pctOfTotalInvestment (ms : List PositionMetrics) (m : PositionMetrics) : ℚ :=
  m.investment_inr / totalInvestmentINR ms * 100

/-! ## Suggestion engine: generate_suggestions (stockprice.py lines 417-447) -/

/-- Sum of the Daily Change (INR) column (stockprice.py line 421). -/
def total_daily_change_inr (ms : List PositionMetrics) : ℚ :=
  (ms.map (·.daily_change_inr)).sum

/-- Whether the volatile-market caution branch is taken (line 423). -/
def volatileCaution (ms : List PositionMetrics) : Bool :=
  total_daily_change_inr ms < -1000

/-- The boolean mask of the profit_targets selection (lines 429-432). -/
def profitPred (m : PositionMetrics) : Bool :=
  50000 < m.gain_loss_inr && 2 < m.daily_percent_change

/-- The boolean mask of the buy_targets selection (lines 439-442). -/
def buyPred (m : PositionMetrics) : Bool :=
  m.gain_loss_inr < 0 && m.daily_percent_change < -1

/-- Descending comparison on Daily Change (%) used by profit_targets. -/
def descByDailyPct (a b : PositionMetrics) : Bool :=
  b.daily_percent_change ≤ a.daily_percent_change

/-- Ascending comparison on Daily Change (%) used by buy_targets. -/
def ascByDailyPct (a b : PositionMetrics) : Bool :=
  a.daily_percent_change ≤ b.daily_percent_change

/-- profit_targets.head(3): the rows printed in the book-profit section
(lines 429-437): filter, sort descending by Daily Change (%), take 3. -/
def profit_targets (ms : List PositionMetrics) : List PositionMetrics :=
  ((ms.filter profitPred).mergeSort descByDailyPct).take 3

/-- buy_targets.head(3): the rows printed in the buy-more section
(lines 439-447): filter, sort ascending by Daily Change (%), take 3. -/
def buy_targets (ms : List PositionMetrics) : List PositionMetrics :=
  ((ms.filter buyPred).mergeSort ascByDailyPct).take 3

/-! ## fetch_stock_data: close-series extraction (stockprice.py lines 38-170)

A close series is a list of observations in chronological order; none marks
a NaN value.  The three extraction paths differ in how they pick the last
two values. -/

/-- Selection of iloc[-1] (current price) and iloc[-2] (previous close)
from a series. -/
def lastTwo {α : Type} (l : List α) : Option (α × α) :=
  match l.reverse with
  | c :: p :: _ => some (c, p)
  | _ => none

/-- Single-ticker batch path (stockprice.py lines 58-75): when the series has
at least two rows, take iloc[-1] and iloc[-2] verbatim — no dropna, so a NaN
can be stored as a price (none in the stored pair). -/
def extractSingle (close : List (Option ℚ)) :
    Option (Option ℚ × Option ℚ) :=
  if 2 ≤ close.length then lastTwo close else none

/-- Multi-ticker batch path (stockprice.py lines 87-100): require at least
two rows, dropna, require at least two valid values, then take the last two
valid values. -/
def extractMulti (close : List (Option ℚ)) : Option (ℚ × ℚ) :=
  if 2 ≤ close.length then
    let valid := close.filterMap id
    if 2 ≤ valid.length then lastTwo valid else none
  else none

/-- Individual retry path (stockprice.py lines 139-147): dropna first, then
require at least two valid values and take the last two. -/
def extractRetry (close : List (Option ℚ)) : Option (ℚ × ℚ) :=
  let valid := close.filterMap id
  if 2 ≤ valid.length then lastTwo valid else none

/-! ## fetch_stock_data: batch-level retry loop (stockprice.py lines 49-124) -/

/-- One response of yf.download for a batch: an exception, a response with no
usable Close data (empty frame or missing Close), or per-ticker close
series. -/
inductive BatchResp where
  | exc : BatchResp
  | noClose : BatchResp
  | ok : (String → List (Option ℚ)) → BatchResp

/-- Result of the per-batch while loop: prices stored into stock_data,
tickers appended to failed_tickers, and how many download attempts were
consumed. -/
structure BatchOutcome where
  stock : List (String × (Option ℚ × Option ℚ))
  failed : List String
  attemptsUsed : Nat
deriving DecidableEq

/-- Processing of a non-exception response body (stockprice.py lines 57-109):
the single-ticker branch stores the last two raw values, the multi-ticker
branch extracts per ticker with dropna; a response without Close data marks
every ticker of the batch failed. -/
def handleResp (batch : List String) (r : BatchResp) :
    List (String × (Option ℚ × Option ℚ)) × List String :=
  match r with
  | .exc => ([], [])
  | .noClose => ([], batch)
  | .ok series =>
    match batch with
    | [t] =>
      match extractSingle (series t) with
      | some pair => ([(t, pair)], [])
      | none => ([], [t])
    | _ =>
      batch.foldr
        (fun t acc =>
          match extractMulti (series t) with
          | some (c, p) => ((t, (some c, some p)) :: acc.1, acc.2)
          | none => (acc.1, t :: acc.2))
        ([], [])

/-- The while loop at stockprice.py lines 52-120, with the remaining attempt
budget (MAX_RETRIES - retry_count) as fuel.  An exception consumes an attempt
and retries; any completed response body sets batch_success and ends the
loop; exhausting the budget marks the whole batch failed. -/
def batchLoopAux (batch : List String) :
    Nat → List BatchResp → BatchOutcome
  | 0, _ => ⟨[], batch, 0⟩
  | _ + 1, [] => ⟨[], [], 0⟩
  | n + 1, r :: rest =>
    match r with
    | .exc =>
      let o := batchLoopAux batch n rest
      ⟨o.stock, o.failed, o.attemptsUsed + 1⟩
    | .noClose => ⟨[], batch, 1⟩
    | .ok series =>
      let hr := handleResp batch (.ok series)
      ⟨hr.1, hr.2, 1⟩

/-- The per-batch fetch with its retry policy (stockprice.py lines 49-124):
at most MAX_RETRIES = 3 download attempts, driven by the successive responses
of the data source. -/
def batchFetch (batch : List String) (responses : List BatchResp) :
    BatchOutcome :=
  batchLoopAux batch MAX_RETRIES responses

/-! ## Input loading and process termination

Both scripts abort fatal input errors with the Python builtin exit().
Called with no argument it raises SystemExit(None), and the interpreter
then terminates with status 0. -/

/-- Outcome of a load stage: either the process terminated with an exit
status, or the loaded value flows on. -/
inductive LoadOutcome (α : Type) where
  | exited : Nat → LoadOutcome α
  | ok : α → LoadOutcome α
deriving DecidableEq

/-- The exit status produced by the Python builtin exit() with no argument:
SystemExit(None) terminates the interpreter with status 0. -/
def exitNoArgStatus : Nat := 0

/-- A loaded tabular file, reduced to what the column checks inspect. -/
structure Table where
  columns : List String
deriving DecidableEq

/-- Required columns of the portfolio CSV (stockprice.py line 23). -/
def portfolioRequiredCols : List String :=
  ["ticker", "shares_held", "avg_cost_usd"]

/-- read_portfolio_data (stockprice.py lines 19-36): a missing file or a
missing required column ends with exit() — status 0.  The input none models
FileNotFoundError. -/
def read_portfolio_data (file : Option Table) : LoadOutcome Table :=
  match file with
  | none => .exited exitNoArgStatus
  | some df =>
    if portfolioRequiredCols.all (fun c => df.columns.contains c) then .ok df
    else .exited exitNoArgStatus

/-- Required columns of the transfers workbook (Transfers.py line 87). -/
def transfersRequiredCols : List String :=
  ["Date", "Cash Amount (in USD)"]

/-- The missing-columns listing printed by Transfers.py line 88. -/
def transfersMissingCols (df : Table) : List String :=
  transfersRequiredCols.filter (fun c => !df.columns.contains c)

/-- The load block of Transfers.py lines 81-102: FileNotFoundError or a
non-empty missing-columns list ends with exit() — status 0. -/
def loadTransfers (file : Option Table) : LoadOutcome Table :=
  match file with
  | none => .exited exitNoArgStatus
  | some df =>
    if transfersMissingCols df = [] then .ok df
    else .exited exitNoArgStatus

/-! ## fetch_historical_inr_rate (Transfers.py lines 8-72)

Dates are day numbers (ℤ); a fetched history window is a list of
(date, close) pairs in the order yfinance returns them (chronological). -/

/-- Round-half-to-even at the unit, as Python round does for ties. -/
def roundHalfEven (x : ℚ) : ℤ :=
  let f := ⌊x⌋
  let r := x - f
  if r < 1 / 2 then f
  else if 1 / 2 < r then f + 1
  else if 2 ∣ f then f else f + 1

/-- round(rate, 4) from Transfers.py lines 44, 52, 58. -/
def round4 (x : ℚ) : ℚ := roundHalfEven (x * 10000) / 10000

/-- start_date of the fetched window (Transfers.py line 29): five days
before the target. -/
def windowStart (target : ℤ) : ℤ := target - 5

/-- end_date of the fetched window (Transfers.py line 30): one day after
the target. -/
def windowEnd (target : ℤ) : ℤ := target + 1

/-- The body of one fetch attempt once a history window is in hand
(Transfers.py lines 36-60): empty window raises ValueError (none); exact
index match returns that close; otherwise the last close at a date on or
before the target; otherwise the first close of the window.  Every returned
value passes through round(., 4). -/
def rateFromHist (hist : List (ℤ × ℚ)) (target : ℤ) : Option ℚ :=
  match hist with
  | [] => none
  | _ =>
    match hist.find? (fun p => p.1 = target) with
    | some p => some (round4 p.2)
    | none =>
      let filtered := hist.filter (fun p => p.1 ≤ target)
      match filtered.getLast? with
      | some p => some (round4 p.2)
      | none => hist.head?.map (fun p => round4 p.2)

/-- One external response to ticker.history: an exception, or a window of
(date, close) rows. -/
inductive RateAttempt where
  | exc : RateAttempt
  | window : List (ℤ × ℚ) → RateAttempt

/-- What one attempt of the for loop yields: none when the attempt fails
(exception raised, or empty window raising ValueError), otherwise the
selected rate. -/
def attemptResult (a : RateAttempt) (target : ℤ) : Option ℚ :=
  match a with
  | .exc => none
  | .window h => rateFromHist h target

/-- The for loop of Transfers.py lines 21-69 with the remaining attempt
count as fuel: a failed attempt moves to the next; exhausting max_retries
falls through to the fallback return of 83.0 (line 72). -/
def fetchRateLoop (target : ℤ) : Nat → List RateAttempt → ℚ
  | 0, _ => 83
  | _ + 1, [] => 83
  | n + 1, a :: rest =>
    match attemptResult a target with
    | some r => r
    | none => fetchRateLoop target n rest

/-- fetch_historical_inr_rate (Transfers.py lines 8-72), driven by the
successive responses of the data source; max_retries = 3 (line 19). -/
def fetch_historical_inr_rate (attempts : List RateAttempt) (target : ℤ) :
    ℚ :=
  fetchRateLoop target 3 attempts

/-! ## Helper lemmas -/

/-- Unfolding lemma: lastTwo returning a pair means the list ends in the
previous value followed by the current value. -/
lemma lastTwo_eq_some {α : Type} {l : List α} {c p : α}
    (h : lastTwo l = some (c, p)) : ∃ t, l = t ++ [p, c] := by
  unfold lastTwo at h
  rcases hr : l.reverse with _ | ⟨x, _ | ⟨y, t⟩⟩ <;> rw [hr] at h <;> simp at h
  obtain ⟨hx, hy⟩ := h
  subst hx; subst hy
  refine ⟨t.reverse, ?_⟩
  have h2 := congrArg List.reverse hr
  simpa [List.reverse_cons, List.append_assoc] using h2

/-- In a window with strictly increasing dates, a date determines its close
value. -/
lemma pairwise_dates_unique {hist : List (ℤ × ℚ)}
    (hs : hist.Pairwise (fun p q => p.1 < q.1))
    {d : ℤ} {v v' : ℚ} (h1 : (d, v) ∈ hist) (h2 : (d, v') ∈ hist) : v = v' := by
  by_contra hne
  have hsym : Symmetric (fun p q : ℤ × ℚ => p.1 < q.1 ∨ q.1 < p.1) :=
    fun a b h => h.symm
  have hp := (hs.imp (fun h => Or.inl h)).forall hsym
  have hneq : ((d, v) : ℤ × ℚ) ≠ (d, v') := by simp [hne]
  have hor := hp h1 h2 hneq
  simp at hor

/-- In a strictly date-sorted window, the element whose date bounds all
others is the last one. -/
lemma getLast?_of_max {l : List (ℤ × ℚ)}
    (hs : l.Pairwise (fun p q => p.1 < q.1))
    {p : ℤ × ℚ} (hmem : p ∈ l) (hmax : ∀ q ∈ l, q.1 ≤ p.1) :
    l.getLast? = some p := by
  induction l with
  | nil => cases hmem
  | cons a t ih =>
    cases t with
    | nil =>
      simp at hmem; subst hmem; rfl
    | cons b t2 =>
      have hcons := List.pairwise_cons.mp hs
      have hp : p ∈ b :: t2 := by
        rcases List.mem_cons.mp hmem with h | h
        · exfalso
          have hb : a.1 < b.1 := hcons.1 b (by simp)
          have hble := hmax b (by simp)
          subst h
          omega
        · exact h
      have hrec : (b :: t2).getLast? = some p :=
        ih hcons.2 hp (fun q hq => hmax q (List.mem_cons_of_mem a hq))
      simpa [List.getLast?_cons_cons] using hrec

/-- In a strictly date-sorted window, the head has the earliest date. -/
lemma head_min {l : List (ℤ × ℚ)}
    (hs : l.Pairwise (fun p q => p.1 < q.1))
    {a : ℤ × ℚ} (h : l.head? = some a) : ∀ q ∈ l, a.1 ≤ q.1 := by
  cases l with
  | nil => simp at h
  | cons x t =>
    simp at h
    subst h
    intro q hq
    rcases List.mem_cons.mp hq with h | h
    · subst h; exact le_refl _
    · exact le_of_lt ((List.pairwise_cons.mp hs).1 q h)

/-- Summing the per-row share formula distributes over the list sum. -/
lemma sum_map_div_mul (f : PositionMetrics → ℚ) (T : ℚ)
    (ms : List PositionMetrics) :
    (ms.map (fun m => f m / T * 100)).sum = (ms.map f).sum / T * 100 := by
  induction ms with
  | nil => simp
  | cons a t ih =>
    simp only [List.map_cons, List.sum_cons, ih]
    ring

/-- Properties of the filter-sort-take-3 pipeline shared by the two
suggestion lists: length, membership, sortedness, and maximality of the
taken prefix. -/
lemma filter_sort_take_spec {α : Type} (le : α → α → Bool)
    (htrans : ∀ a b c : α, le a b → le b c → le a c)
    (htotal : ∀ a b : α, le a b || le b a)
    (p : α → Bool) (l : List α) :
    (((l.filter p).mergeSort le).take 3).length = min 3 (l.filter p).length ∧
    (∀ m ∈ ((l.filter p).mergeSort le).take 3, m ∈ l ∧ p m = true) ∧
    ((((l.filter p).mergeSort le).take 3).Pairwise (fun a b => le a b = true)) ∧
    (∀ m ∈ l, p m = true → m ∉ ((l.filter p).mergeSort le).take 3 →
      ∀ x ∈ ((l.filter p).mergeSort le).take 3, le x m = true) := by
  have hsorted : ((l.filter p).mergeSort le).Pairwise (fun a b => le a b = true) :=
    List.sorted_mergeSort htrans htotal (l.filter p)
  have hperm : List.Perm ((l.filter p).mergeSort le) (l.filter p) :=
    List.mergeSort_perm (l.filter p) le
  have hsplit : ((l.filter p).mergeSort le).take 3 ++
      ((l.filter p).mergeSort le).drop 3 = (l.filter p).mergeSort le :=
    List.take_append_drop 3 _
  have hpw : (((l.filter p).mergeSort le).take 3 ++
      ((l.filter p).mergeSort le).drop 3).Pairwise (fun a b => le a b = true) := by
    rw [hsplit]; exact hsorted
  have hcross := (List.pairwise_append.mp hpw).2.2
  refine ⟨?_, ?_, ?_, ?_⟩
  · rw [List.length_take, List.length_mergeSort]
  · intro m hm
    have hm2 : m ∈ (l.filter p).mergeSort le := List.mem_of_mem_take hm
    have hm3 : m ∈ l.filter p := hperm.mem_iff.mp hm2
    exact List.mem_filter.mp hm3
  · exact hsorted.sublist (List.take_sublist 3 _)
  · intro m hml hpm hnot x hx
    have hmem_s : m ∈ (l.filter p).mergeSort le :=
      hperm.mem_iff.mpr (List.mem_filter.mpr ⟨hml, hpm⟩)
    have hor : m ∈ ((l.filter p).mergeSort le).take 3 ∨
        m ∈ ((l.filter p).mergeSort le).drop 3 := by
      rw [← List.mem_append, hsplit]
      exact hmem_s
    rcases hor with h | h
    · exact absurd h hnot
    · exact hcross x hx m h

/-! ## Claim theorems -/

/-- C1 (counterexample): with previous_close = 0 the metric calculation does
not report an undefined/N-A value for the daily change percent — the
division raises ZeroDivisionError and analyze_portfolio produces no result
at all. -/
theorem zero_prev_close_aborts_concrete :
    analyze_portfolio [⟨"AAPL", 10, 175⟩]
      (fun t => if t = "AAPL" then some ⟨2, 0⟩ else none) USD_TO_INR = none :=
  rfl

/-- C1 (amended): if any position processed by analyze_portfolio has a quote
with previous_close = 0, the computation aborts with ZeroDivisionError
(none): no row is emitted, so no NaN or infinity is produced, but neither is
an explicit undefined/N-A value reported. -/
theorem analyze_portfolio_zero_prev_close_aborts
    (rows : List PortfolioRow) (market : String → Option Quote)
    (rate : ℚ) (row : PortfolioRow) (q : Quote)
    (hmem : row ∈ rows) (hq : market row.ticker = some q)
    (hz : q.prev_close_usd = 0) :
    analyze_portfolio rows market rate = none := by
  induction rows with
  | nil => cases hmem
  | cons a rest ih =>
    cases hmem with
    | head => simp [analyze_portfolio, hq, analyzeRow, pyDiv, hz]
    | tail _ hm =>
      unfold analyze_portfolio
      cases hma : market a.ticker with
      | none => exact ih hm
      | some q2 =>
        cases har : analyzeRow a q2 rate with
        | none => simp [har]
        | some m => simp [har, ih hm]

/-- C1 (witness): concrete instance of the amended theorem. -/
theorem analyze_portfolio_zero_prev_close_aborts_witness :
    analyze_portfolio [⟨"MSFT", 5, 350⟩]
      (fun t => if t = "MSFT" then some ⟨7, 0⟩ else none) USD_TO_INR = none :=
  analyze_portfolio_zero_prev_close_aborts _ _ _ ⟨"MSFT", 5, 350⟩ ⟨7, 0⟩
    (by simp) rfl rfl

/-- C2: for a non-empty fetched window with strictly increasing dates, the
rate selection returns the close at the exact query date when present,
otherwise the most recent close at a date on or before the query date,
otherwise the earliest close of the window; and the window requested spans
five days before to one day after the target. -/
theorem rateFromHist_selection_spec (hist : List (ℤ × ℚ)) (target : ℤ)
    (hne : hist ≠ [])
    (hsorted : hist.Pairwise (fun p q => p.1 < q.1)) :
    (windowStart target = target - 5 ∧ windowEnd target = target + 1) ∧
    (∀ v, (target, v) ∈ hist → rateFromHist hist target = some (round4 v)) ∧
    (∀ d v, (d, v) ∈ hist → d ≤ target →
      (∀ q ∈ hist, q.1 ≤ target → q.1 ≤ d) →
      rateFromHist hist target = some (round4 v)) ∧
    ((∀ q ∈ hist, target < q.1) →
      ∃ p, hist.head? = some p ∧ (∀ q ∈ hist, p.1 ≤ q.1) ∧
        rateFromHist hist target = some (round4 p.2)) := by
  obtain ⟨a, t, rfl⟩ : ∃ a t, hist = a :: t := by
    cases hist with
    | nil => exact absurd rfl hne
    | cons a t => exact ⟨a, t, rfl⟩
  refine ⟨⟨rfl, rfl⟩, ?_, ?_, ?_⟩
  · intro v hv
    have hfind : ∃ p, (a :: t).find? (fun p => p.1 = target) = some p := by
      have hsome : ((a :: t).find? (fun p => p.1 = target)).isSome :=
        List.find?_isSome.mpr ⟨(target, v), hv, by simp⟩
      exact Option.isSome_iff_exists.mp hsome
    obtain ⟨p, hp⟩ := hfind
    have hpmem := List.mem_of_find?_eq_some hp
    have hpeq : p.1 = target := by
      have := List.find?_some hp
      simpa using this
    have hv2 : p.2 = v := by
      apply pairwise_dates_unique hsorted ?_ hv
      rw [← hpeq]
      simpa using hpmem
    simp only [rateFromHist, hp, hv2]
  · intro d v hdv hdle hmax
    cases hfind : (a :: t).find? (fun p => p.1 = target) with
    | some p =>
      have hpmem := List.mem_of_find?_eq_some hfind
      have hpeq : p.1 = target := by
        have := List.find?_some hfind
        simpa using this
      have h1 : p.1 ≤ d := hmax p hpmem (le_of_eq hpeq)
      have hdt : d = target := le_antisymm hdle (hpeq ▸ h1)
      have hv2 : p.2 = v := by
        have hp2 : (target, p.2) ∈ a :: t := by
          rw [← hpeq]
          simpa using hpmem
        have hv1 : (target, v) ∈ a :: t := by
          rw [← hdt]
          exact hdv
        exact pairwise_dates_unique hsorted hp2 hv1
      simp only [rateFromHist, hfind, hv2]
    | none =>
      have hmemf : (d, v) ∈ (a :: t).filter (fun p => p.1 ≤ target) :=
        List.mem_filter.mpr ⟨hdv, by simpa using hdle⟩
      have hsf : ((a :: t).filter (fun p => p.1 ≤ target)).Pairwise
          (fun p q => p.1 < q.1) :=
        hsorted.sublist (List.filter_sublist _)
      have hmaxf : ∀ q ∈ (a :: t).filter (fun p => p.1 ≤ target), q.1 ≤ d := by
        intro q hq
        have hq2 := List.mem_filter.mp hq
        exact hmax q hq2.1 (by simpa using hq2.2)
      have hlast := getLast?_of_max hsf hmemf hmaxf
      simp only [rateFromHist, hfind, hlast]
  · intro hall
    refine ⟨a, rfl, head_min hsorted rfl, ?_⟩
    have hfind : (a :: t).find? (fun p => p.1 = target) = none := by
      apply List.find?_eq_none.mpr
      intro x hx
      simp only [decide_eq_true_eq]
      exact ne_of_gt (hall x hx)
    have hfilter : (a :: t).filter (fun p => p.1 ≤ target) = [] := by
      rw [List.filter_eq_nil_iff]
      intro x hx
      simp only [decide_eq_true_eq, not_le]
      exact hall x hx
    simp only [rateFromHist, hfind, hfilter]
    rfl

/-- C2 (witness): a weekend-style query: no row at date 5, the most recent
row on or before it is (3, 84). -/
theorem rateFromHist_selection_spec_witness :
    rateFromHist [(0, 83), (3, 84)] 5 = some (round4 84) :=
  (rateFromHist_selection_spec [(0, 83), (3, 84)] 5 (by simp)
      (by decide)).2.2.1 3 84 (by simp) (by decide) (by decide)

/-- C3: when all three fetch attempts for a date fail (exception or empty
window), fetch_historical_inr_rate returns the hardcoded fallback 83.0
instead of raising, whatever further responses would have said. -/
theorem fetch_rate_fallback_83 (a1 a2 a3 : RateAttempt)
    (rest : List RateAttempt) (target : ℤ)
    (h1 : attemptResult a1 target = none)
    (h2 : attemptResult a2 target = none)
    (h3 : attemptResult a3 target = none) :
    fetch_historical_inr_rate (a1 :: a2 :: a3 :: rest) target = 83 := by
  simp [fetch_historical_inr_rate, fetchRateLoop, h1, h2, h3]

/-- C3 (witness): two exceptions and one empty window exhaust the retries. -/
theorem fetch_rate_fallback_83_witness :
    fetch_historical_inr_rate [.exc, .window [], .exc] 0 = 83 :=
  fetch_rate_fallback_83 _ _ _ [] 0 rfl rfl rfl

/-- C4 (counterexample): the single-ticker batch path does not drop the NaN
observation: on the series [1.5, NaN, 2.0] it selects NaN as previous close,
while the dropna-based retry and multi-ticker extractions select 1.5. -/
theorem single_path_keeps_nan_concrete :
    extractSingle [some (3 / 2), none, some 2] = some (some 2, none) ∧
    extractRetry [some (3 / 2), none, some 2] = some (2, 3 / 2) ∧
    extractMulti [some (3 / 2), none, some 2] = some (2, 3 / 2) :=
  ⟨rfl, rfl, rfl⟩

/-- C4 (amended): the multi-ticker batch path and the individual retry path
agree and drop NaN observations before selecting the last two valid closes;
the single-ticker batch path instead takes the last two raw observations,
NaN included. -/
theorem extract_paths_dropna (close : List (Option ℚ)) :
    extractMulti close = extractRetry close ∧
    (∀ c p, extractRetry close = some (c, p) →
      ∃ t, close.filterMap id = t ++ [p, c]) ∧
    (∀ c p, extractSingle close = some (c, p) →
      ∃ t, close = t ++ [p, c]) := by
  refine ⟨?_, ?_, ?_⟩
  · by_cases hlen : 2 ≤ close.length
    · simp [extractMulti, extractRetry, hlen]
    · have hv : ¬ 2 ≤ (close.filterMap id).length := by
        have := List.length_filterMap_le id close
        omega
      simp [extractMulti, extractRetry, hlen, hv]
  · intro c p h
    simp only [extractRetry] at h
    split at h
    · exact lastTwo_eq_some h
    · simp at h
  · intro c p h
    simp only [extractSingle] at h
    split at h
    · exact lastTwo_eq_some h
    · simp at h

/-- C4 (witness): concrete instance of the amended theorem on the series
[1.0, 2.0]. -/
theorem extract_paths_dropna_witness :
    extractMulti [some 1, some 2] = extractRetry [some 1, some 2] ∧
    (∃ t, ([some (1 : ℚ), some 2].filterMap id) = t ++ [1, 2]) ∧
    (∃ t, [some (1 : ℚ), some 2] = t ++ [some 1, some 2]) :=
  ⟨(extract_paths_dropna [some 1, some 2]).1,
   (extract_paths_dropna [some 1, some 2]).2.1 2 1 rfl,
   (extract_paths_dropna [some 1, some 2]).2.2 (some 2) (some 1) rfl⟩

/-- C5 (counterexample): a malformed first response (no Close data) is not
retried: the whole batch is marked failed after a single attempt, even
though the very next response would have supplied full data. -/
theorem malformed_response_not_retried_concrete :
    batchFetch ["A", "B"]
      [.noClose, .ok (fun _ => [some 1, some 2]),
       .ok (fun _ => [some 1, some 2])] = ⟨[], ["A", "B"], 1⟩ ∧
    batchFetch ["A", "B"] [.ok (fun _ => [some 1, some 2])] =
      ⟨[("A", (some 2, some 1)), ("B", (some 2, some 1))], [], 1⟩ :=
  ⟨rfl, rfl⟩

/-- C5 (amended): the combined batch request is retried (up to 3 attempts)
only when it raises an exception; a response that completes — including an
empty/malformed one — ends the loop at once: a malformed response marks the
whole batch failed without further batch-level retry, and only three
consecutive exceptions mark the batch failed by exhaustion. -/
theorem batch_retry_on_exception_only (batch : List String)
    (rest : List BatchResp) :
    batchFetch batch (.exc :: .exc :: .exc :: rest) = ⟨[], batch, 3⟩ ∧
    (∀ k, k < 3 →
      batchFetch batch (List.replicate k .exc ++ .noClose :: rest) =
        ⟨[], batch, k + 1⟩) ∧
    (∀ k, k < 3 → ∀ series,
      batchFetch batch (List.replicate k .exc ++ .ok series :: rest) =
        ⟨(handleResp batch (.ok series)).1,
         (handleResp batch (.ok series)).2, k + 1⟩) := by
  refine ⟨rfl, ?_, ?_⟩
  · intro k hk
    interval_cases k <;> simp [batchFetch, batchLoopAux, MAX_RETRIES]
  · intro k hk series
    interval_cases k <;> simp [batchFetch, batchLoopAux, MAX_RETRIES]

/-- C5 (witness): one exception then a malformed response: two attempts,
batch failed. -/
theorem batch_retry_on_exception_only_witness :
    batchFetch ["A"] [.exc, .noClose] = ⟨[], ["A"], 2⟩ :=
  (batch_retry_on_exception_only ["A"] []).2.1 1 (by omega)

/-- C6 (counterexample): with total investment 0 the portfolio return
percent is the numeric literal 0, not an undefined/N-A value. -/
theorem zero_investment_pct_zero_concrete :
    totalInvestmentUSD [⟨"X", 0, 0, 3, 2, 50, 0, 0, 0, 0, 0, 5, 0⟩] = 0 ∧
    total_gain_loss_pct [⟨"X", 0, 0, 3, 2, 50, 0, 0, 0, 0, 0, 5, 0⟩] = 0 := by
  constructor <;>
    norm_num [total_gain_loss_pct, totalInvestmentUSD, totalGainLossUSD]

/-- C6 (amended): when total investment is not positive the portfolio-level
return percent is reported as 0 (not as N-A); when it is positive it equals
total gain/loss divided by total investment times 100. -/
theorem total_gain_loss_pct_guard (ms : List PositionMetrics) :
    (totalInvestmentUSD ms ≤ 0 → total_gain_loss_pct ms = 0) ∧
    (0 < totalInvestmentUSD ms →
      total_gain_loss_pct ms * totalInvestmentUSD ms =
        totalGainLossUSD ms * 100) := by
  constructor
  · intro h
    simp [total_gain_loss_pct, not_lt.mpr h]
  · intro h
    have hne : totalInvestmentUSD ms ≠ 0 := ne_of_gt h
    simp only [total_gain_loss_pct, if_pos h]
    field_simp

/-- C6 (witness): both guard branches at concrete inputs. -/
theorem total_gain_loss_pct_guard_witness :
    total_gain_loss_pct [] = 0 ∧
    total_gain_loss_pct [⟨"X", 1, 4, 9, 2, 50, 0, 4, 9, 0, 0, 5, 0⟩] *
        totalInvestmentUSD [⟨"X", 1, 4, 9, 2, 50, 0, 4, 9, 0, 0, 5, 0⟩] =
      totalGainLossUSD [⟨"X", 1, 4, 9, 2, 50, 0, 4, 9, 0, 0, 5, 0⟩] * 100 :=
  ⟨(total_gain_loss_pct_guard []).1 (by norm_num [totalInvestmentUSD]),
   (total_gain_loss_pct_guard [⟨"X", 1, 4, 9, 2, 50, 0, 4, 9, 0, 0, 5, 0⟩]).2
     (by norm_num [totalInvestmentUSD])⟩

/-- C7: both fatal input paths report the error (for the transfers workbook,
with the listing of missing columns) and then terminate through the Python
builtin exit() with no argument, which yields exit status 0 — not the
non-zero status the specification requires. -/
theorem fatal_input_errors_exit_status_zero :
    loadTransfers none = .exited 0 ∧
    loadTransfers (some ⟨["Date"]⟩) = .exited 0 ∧
    transfersMissingCols ⟨["Date"]⟩ = ["Cash Amount (in USD)"] ∧
    read_portfolio_data none = .exited 0 ∧
    read_portfolio_data (some ⟨["ticker", "shares_held"]⟩) = .exited 0 ∧
    exitNoArgStatus = 0 :=
  ⟨rfl, rfl, rfl, rfl, rfl, rfl⟩

/-- C8: in a run with at least one position and positive totals, each of the
two per-position percentage columns sums to 100 within 1e-6 (the sums are in
fact exactly 100 over exact arithmetic). -/
theorem pct_columns_sum_100 (ms : List PositionMetrics) (hne : ms ≠ [])
    (hv : 0 < totalCurrentValueINR ms) (hi : 0 < totalInvestmentINR ms) :
    |(ms.map (pctOfTotalValue ms)).sum - 100| ≤ 1 / 1000000 ∧
    |(ms.map (pctOfTotalInvestment ms)).sum - 100| ≤ 1 / 1000000 := by
  have key : ∀ f : PositionMetrics → ℚ, (ms.map f).sum ≠ 0 →
      (ms.map (fun m => f m / (ms.map f).sum * 100)).sum = 100 := by
    intro f hT
    rw [sum_map_div_mul f ((ms.map f).sum) ms, div_self hT]
    ring
  have h1 : (ms.map (pctOfTotalValue ms)).sum = 100 :=
    key (fun m => m.current_value_inr) (ne_of_gt hv)
  have h2 : (ms.map (pctOfTotalInvestment ms)).sum = 100 :=
    key (fun m => m.investment_inr) (ne_of_gt hi)
  rw [h1, h2]
  norm_num

/-- C8 (witness): a single position owns 100 percent of both totals. -/
theorem pct_columns_sum_100_witness :
    |(([(⟨"A", 1, 1, 1, 1, 1, 1, 1, 1, 1, 1, 1, 1⟩ : PositionMetrics)]).map
        (pctOfTotalValue [⟨"A", 1, 1, 1, 1, 1, 1, 1, 1, 1, 1, 1, 1⟩])).sum
      - 100| ≤ 1 / 1000000 ∧
    |(([(⟨"A", 1, 1, 1, 1, 1, 1, 1, 1, 1, 1, 1, 1⟩ : PositionMetrics)]).map
        (pctOfTotalInvestment [⟨"A", 1, 1, 1, 1, 1, 1, 1, 1, 1, 1, 1, 1⟩])).sum
      - 100| ≤ 1 / 1000000 :=
  pct_columns_sum_100 [⟨"A", 1, 1, 1, 1, 1, 1, 1, 1, 1, 1, 1, 1⟩]
    (by simp) (by norm_num [totalCurrentValueINR])
    (by norm_num [totalInvestmentINR])

/-- C9: the suggestion engine emits the volatile-market caution exactly when
the summed daily change (INR) is below -1000; the book-profit list consists
of at most three positions drawn from those with gain over 50000 INR and
daily change over 2 percent, sorted descending by daily change percent and
maximal among the candidates; symmetrically, the buy-more list consists of
at most three positions with negative gain and daily change below -1
percent, sorted ascending and minimal among the candidates. -/
theorem generate_suggestions_spec (ms : List PositionMetrics) :
    (volatileCaution ms = true ↔ total_daily_change_inr ms < -1000) ∧
    (profit_targets ms).length = min 3 (ms.filter profitPred).length ∧
    (∀ m ∈ profit_targets ms,
      m ∈ ms ∧ 50000 < m.gain_loss_inr ∧ 2 < m.daily_percent_change) ∧
    (profit_targets ms).Pairwise
      (fun a b => b.daily_percent_change ≤ a.daily_percent_change) ∧
    (∀ m ∈ ms, 50000 < m.gain_loss_inr → 2 < m.daily_percent_change →
      m ∉ profit_targets ms →
      ∀ x ∈ profit_targets ms,
        m.daily_percent_change ≤ x.daily_percent_change) ∧
    (buy_targets ms).length = min 3 (ms.filter buyPred).length ∧
    (∀ m ∈ buy_targets ms,
      m ∈ ms ∧ m.gain_loss_inr < 0 ∧ m.daily_percent_change < -1) ∧
    (buy_targets ms).Pairwise
      (fun a b => a.daily_percent_change ≤ b.daily_percent_change) ∧
    (∀ m ∈ ms, m.gain_loss_inr < 0 → m.daily_percent_change < -1 →
      m ∉ buy_targets ms →
      ∀ x ∈ buy_targets ms,
        x.daily_percent_change ≤ m.daily_percent_change) := by
  have hdesc := filter_sort_take_spec descByDailyPct
    (by
      intro a b c hab hbc
      simp only [descByDailyPct, decide_eq_true_eq] at *
      exact le_trans hbc hab)
    (by
      intro a b
      simp only [descByDailyPct, Bool.or_eq_true, decide_eq_true_eq]
      exact le_total _ _)
    profitPred ms
  have hasc := filter_sort_take_spec ascByDailyPct
    (by
      intro a b c hab hbc
      simp only [ascByDailyPct, decide_eq_true_eq] at *
      exact le_trans hab hbc)
    (by
      intro a b
      simp only [ascByDailyPct, Bool.or_eq_true, decide_eq_true_eq]
      exact le_total _ _)
    buyPred ms
  have hpp : ∀ m : PositionMetrics, profitPred m = true ↔
      50000 < m.gain_loss_inr ∧ 2 < m.daily_percent_change := by
    intro m
    simp [profitPred]
  have hbp : ∀ m : PositionMetrics, buyPred m = true ↔
      m.gain_loss_inr < 0 ∧ m.daily_percent_change < -1 := by
    intro m
    simp [buyPred]
  refine ⟨by simp [volatileCaution], ?_, ?_, ?_, ?_, ?_, ?_, ?_, ?_⟩
  · exact hdesc.1
  · intro m hm
    obtain ⟨h1, h2⟩ := hdesc.2.1 m hm
    exact ⟨h1, (hpp m).mp h2⟩
  · exact hdesc.2.2.1.imp (fun h => by
      simpa [descByDailyPct] using h)
  · intro m hml hg hd hnot x hx
    have := hdesc.2.2.2 m hml ((hpp m).mpr ⟨hg, hd⟩) hnot x hx
    simpa [descByDailyPct] using this
  · exact hasc.1
  · intro m hm
    obtain ⟨h1, h2⟩ := hasc.2.1 m hm
    exact ⟨h1, (hbp m).mp h2⟩
  · exact hasc.2.2.1.imp (fun h => by
      simpa [ascByDailyPct] using h)
  · intro m hml hg hd hnot x hx
    have := hasc.2.2.2 m hml ((hbp m).mpr ⟨hg, hd⟩) hnot x hx
    simpa [ascByDailyPct] using this

/-- C9 (witness): a position with gain 60000 INR and daily change 3 percent
is in the book-profit list and satisfies the selection conditions. -/
theorem generate_suggestions_spec_witness :
    (⟨"P", 1, 1, 1, 1, 3, 1, 1, 1, 1, 1, 1, 60000⟩ : PositionMetrics) ∈
        [(⟨"P", 1, 1, 1, 1, 3, 1, 1, 1, 1, 1, 1, 60000⟩ : PositionMetrics)] ∧
    (50000 : ℚ) < 60000 ∧ (2 : ℚ) < 3 :=
  (generate_suggestions_spec
      [⟨"P", 1, 1, 1, 1, 3, 1, 1, 1, 1, 1, 1, 60000⟩]).2.2.1
    ⟨"P", 1, 1, 1, 1, 3, 1, 1, 1, 1, 1, 1, 60000⟩
    (by norm_num [profit_targets, profitPred])

/-- C10: every row emitted by the metric calculation has mutually consistent
converted-currency fields: Gain/Loss (INR) equals Gain/Loss (USD) times the
exchange rate and also equals Current Value (INR) minus Investment (INR),
while Current Value (INR) and Investment (INR) are the USD amounts times the
exchange rate. -/
theorem analyzeRow_inr_consistency (row : PortfolioRow) (q : Quote)
    (rate : ℚ) (m : PositionMetrics)
    (h : analyzeRow row q rate = some m) :
    m.gain_loss_inr = m.gain_loss_usd * rate ∧
    m.gain_loss_inr = m.current_value_inr - m.investment_inr ∧
    m.current_value_inr = m.current_value_usd * rate ∧
    m.investment_inr = m.investment_usd * rate := by
  by_cases hz : q.prev_close_usd = 0
  · simp [analyzeRow, pyDiv, hz] at h
  · simp [analyzeRow, pyDiv, hz] at h
    subst h
    refine ⟨rfl, by ring, rfl, rfl⟩

/-- C10 (witness): concrete instance at shares 10, cost 1, quote (3, 2) and
exchange rate 2. -/
theorem analyzeRow_inr_consistency_witness :
    (⟨"T", 10, 1, 3, 2, 50, 20, 10, 30, 20, 60, 20, 40⟩ :
        PositionMetrics).gain_loss_inr =
      (⟨"T", 10, 1, 3, 2, 50, 20, 10, 30, 20, 60, 20, 40⟩ :
        PositionMetrics).gain_loss_usd * 2 ∧
    (⟨"T", 10, 1, 3, 2, 50, 20, 10, 30, 20, 60, 20, 40⟩ :
        PositionMetrics).gain_loss_inr =
      (⟨"T", 10, 1, 3, 2, 50, 20, 10, 30, 20, 60, 20, 40⟩ :
        PositionMetrics).current_value_inr -
      (⟨"T", 10, 1, 3, 2, 50, 20, 10, 30, 20, 60, 20, 40⟩ :
        PositionMetrics).investment_inr ∧
    (⟨"T", 10, 1, 3, 2, 50, 20, 10, 30, 20, 60, 20, 40⟩ :
        PositionMetrics).current_value_inr =
      (⟨"T", 10, 1, 3, 2, 50, 20, 10, 30, 20, 60, 20, 40⟩ :
        PositionMetrics).current_value_usd * 2 ∧
    (⟨"T", 10, 1, 3, 2, 50, 20, 10, 30, 20, 60, 20, 40⟩ :
        PositionMetrics).investment_inr =
      (⟨"T", 10, 1, 3, 2, 50, 20, 10, 30, 20, 60, 20, 40⟩ :
        PositionMetrics).investment_usd * 2 :=
  analyzeRow_inr_consistency ⟨"T", 10, 1⟩ ⟨3, 2⟩ 2
    ⟨"T", 10, 1, 3, 2, 50, 20, 10, 30, 20, 60, 20, 40⟩
    (by norm_num [analyzeRow, pyDiv])

end Finance
